import Mathlib

/-!
Verification of `pylib/middleman.py` (polychromatic): a shallow embedding of
the `Middleman` aggregation layer — backend lifecycle classification, the
lazy device cache, device lookup, active-option resolution and bulk apply —
together with theorems settling the specified properties.

Python dictionaries are embedded as association lists (keys are unique in the
source, where dicts are built with distinct literal keys), Python `None` as
`Option.none`, and exceptions as explicit outcome constructors.
-/

/-- A parameter record nested inside an `effect` option
(`option["parameters"]` entries, each with `active`, `data`, `colours`). -/
structure Param where
  active : Bool
  data : String
  colours : List String
deriving DecidableEq

/-- An option record inside a zone's option list.  `active = none` embeds a
dict with no `"active"` key; `parameters = none` embeds a dict with no
`"parameters"` key (toggle/slider), whose access raises `KeyError`. -/
structure DevOption where
  id : String
  otype : String
  active : Option Bool
  colours : List String
  parameters : Option (List Param)
deriving DecidableEq

/-- A device record as consumed by the middleman's bulk/option code
(`device["name"]`, `device["backend"]`, `device["uid"]`, `device["serial"]`,
`device["form_factor"]`, `device["zone_options"]`).  `zone_options` is the
zone-name-to-option-list dict in insertion order. -/
structure DeviceItem where
  name : String
  serial : String
  backend : String
  uid : Nat
  form_factor : String
  zone_options : List (String × List DevOption)
deriving DecidableEq

/-- Result of a backend's `get_device_by_name` / `get_device_by_serial` call:
either an instance of `Backend.DeviceItem` (which the middleman accepts) or
any other value — `None`, a string, etc. (which it skips). -/
inductive LookupResult where
  | item (d : DeviceItem)
  | other
deriving DecidableEq

/-- Result of a backend's `get_devices()` call: a `list` (accepted by the
cache loader) or any non-list value such as an error string or `None`. -/
inductive DevicesResult where
  | list (ds : List DeviceItem)
  | other
deriving DecidableEq

/-- A running backend object, embedded by the behaviour of the methods the
middleman calls.  The method fields are total functions: per the backend
contract they return values (absence is `None`-like, not an exception). -/
structure Backend where
  backend_id : String
  version : String
  devices : DevicesResult
  byName : String → LookupResult
  bySerial : String → LookupResult

/-- Outcome of calling `backend.init()` on a constructed backend:
it may raise `ImportError`/`ModuleNotFoundError`, raise any other
exception (with a message), or return a truthy/falsy value. -/
inductive InitOutcome where
  | raisesImport
  | raisesOther (msg : String)
  | returns (ok : Bool)

/-- Behaviour of `BACKEND_MODULES[backend_id](dbg, common, _)` for one id:
construction raises `ImportError`/`ModuleNotFoundError`, raises another
exception, or yields a backend object whose `init()` then behaves as given. -/
inductive LoadBehavior where
  | raiseImport
  | raiseOther (msg : String)
  | constructed (b : Backend) (outcome : InitOutcome)

/-- The module-level registries `BACKEND_NAMES`, `BACKEND_MODULES` and
`TROUBLESHOOT_MODULES` (tests substitute these): `names` is the key list of
`BACKEND_NAMES` in iteration order, `modules` the construction behaviour per
id (`none` embeds a missing `BACKEND_MODULES` key, whose lookup raises
`KeyError`), and `troubleshoot` whether `TROUBLESHOOT_MODULES` has the id. -/
structure Registry where
  names : List String
  modules : String → Option LoadBehavior
  troubleshoot : String → Bool

/-- The mutable attributes of a `Middleman` instance.  `import_errors` and
`troubleshooters` are dicts keyed by backend id; they are embedded as lists
in insertion order (ids are distinct in any one run over dict keys). -/
structure MState where
  backends : List Backend
  bad_init : List Backend
  not_installed : List String
  troubleshooters : List String
  import_errors : List (String × String)
  device_cache : List DeviceItem

/-- The state set up by `Middleman.__init__`: every collection empty. -/
def initialState : MState :=
  { backends := [], bad_init := [], not_installed := [],
    troubleshooters := [], import_errors := [], device_cache := [] }

/-- The `common.get_exception_as_string(e)` collaborator: formats an
exception into a human-readable diagnostic string. -/
def get_exception_as_string (e : String) : String :=
  "Traceback (most recent call last): " ++ e

namespace Middleman

/-- The first `try` block of `_load_backend_module`: look up the constructor
(`KeyError` lands in the generic `except Exception` arm), construct, call
`init()`, and file the id/backend into exactly one collection.
`ImportError`/`ModuleNotFoundError` → `not_installed`; any other exception →
`import_errors`; falsy `init()` → `bad_init`; truthy `init()` → `backends`. -/
def load_backend_classify (reg : Registry) (s : MState) (id : String) : MState :=
  match reg.modules id with
  | none =>
      { s with import_errors :=
          s.import_errors ++ [(id, get_exception_as_string ("KeyError: " ++ id))] }
  | some .raiseImport =>
      { s with not_installed := s.not_installed ++ [id] }
  | some (.raiseOther m) =>
      { s with import_errors := s.import_errors ++ [(id, get_exception_as_string m)] }
  | some (.constructed _ .raisesImport) =>
      { s with not_installed := s.not_installed ++ [id] }
  | some (.constructed _ (.raisesOther m)) =>
      { s with import_errors := s.import_errors ++ [(id, get_exception_as_string m)] }
  | some (.constructed b (.returns ok)) =>
      if ok then { s with backends := s.backends ++ [b] }
      else { s with bad_init := s.bad_init ++ [b] }

/-- The whole of `_load_backend_module`: the classification block followed by
the troubleshooter block.  The second `try` stores
`TROUBLESHOOT_MODULES[backend_id]` unconditionally; its handler catches
`NameError`, so when the key is missing the `KeyError` escapes — the `Bool`
component is `true` exactly when an exception escapes the call. -/
def load_backend_module (reg : Registry) (s : MState) (id : String) : MState × Bool :=
  let s1 := load_backend_classify reg s id
  if reg.troubleshoot id then
    ({ s1 with troubleshooters := s1.troubleshooters ++ [id] }, false)
  else
    (s1, true)

/-- The loop body of `init()` over a list of backend ids: each id is loaded
in turn; an exception escaping `_load_backend_module` (the uncaught
`KeyError`, embedded as `Except.error` carrying the state at that point)
aborts the remaining ids. -/
def initAux (reg : Registry) : List String → MState → Except MState MState
  | [], s => .ok s
  | id :: rest, s =>
      let (s1, raised) := load_backend_module reg s id
      if raised then .error s1 else initAux reg rest s1

/-- `Middleman.init()`: iterate `BACKEND_NAMES.keys()` and load each backend.
`Except.error` embeds an exception propagating out of `init()`. -/
def init (reg : Registry) (s : MState) : Except MState MState :=
  initAux reg reg.names s

/-- Sequential composition of the state effects of loading each id in a list
(ignoring the raised flag); used to describe the partial state at the point
an exception escapes. -/
def loadSeq (reg : Registry) (s : MState) (ids : List String) : MState :=
  ids.foldl (fun st i => (load_backend_module reg st i).1) s

/-- `Middleman._reload_device_cache_if_empty`: return immediately when the
cache is non-empty, otherwise append every backend's `get_devices()` result
that is a `list` (`type(device_list) == list`), in backend order. -/
def reload_device_cache_if_empty (s : MState) : MState :=
  if s.device_cache.isEmpty then
    let cache :=
      s.backends.foldl
        (fun acc b =>
          match b.devices with
          | .list ds => acc ++ ds
          | .other => acc)
        s.device_cache
    { s with device_cache := cache }
  else s

/-- `Middleman.reload_device_cache`: clear the cache, then repopulate. -/
def reload_device_cache (s : MState) : MState :=
  reload_device_cache_if_empty { s with device_cache := [] }

/-- `Middleman.get_devices`: lazily populate the cache and return it,
together with the (possibly updated) state. -/
def get_devices (s : MState) : List DeviceItem × MState :=
  let s1 := reload_device_cache_if_empty s
  (s1.device_cache, s1)

/-- The `for backend in self.backends` loop of `get_device_by_name`:
return the device from the first backend whose answer passes the
`isinstance(device, Backend.DeviceItem)` check. -/
def byNameLoop (name : String) : List Backend → Option DeviceItem
  | [] => none
  | b :: rest =>
      match b.byName name with
      | .item d => some d
      | .other => byNameLoop name rest

/-- The `for backend in self.backends` loop of `get_device_by_serial`. -/
def bySerialLoop (serial : String) : List Backend → Option DeviceItem
  | [] => none
  | b :: rest =>
      match b.bySerial serial with
      | .item d => some d
      | .other => bySerialLoop serial rest

/-- `Middleman.get_device_by_name`: ask each running backend in list order;
return the first result that is a `Backend.DeviceItem` instance, else `None`.
The embedding is a total function: the loop itself raises nothing. -/
def get_device_by_name (s : MState) (name : String) : Option DeviceItem :=
  byNameLoop name s.backends

/-- `Middleman.get_device_by_serial`: ask each running backend in list order;
return the first result that is a `Backend.DeviceItem` instance, else `None`.
The embedding is a total function: the loop itself raises nothing. -/
def get_device_by_serial (s : MState) (serial : String) : Option DeviceItem :=
  bySerialLoop serial s.backends

/-- Local variables of `_get_current_device_option` (`option_id`,
`option_data`, `colour_hex`, `found_option`, `param`), threaded through the
zone/option/parameter loops. -/
structure ScanState where
  option_id : Option String
  option_data : Option String
  colour_hex : List String
  found_option : Option DevOption
  param : Option Param

/-- The initial values of the locals of `_get_current_device_option`. -/
def initScan : ScanState :=
  { option_id := none, option_data := none, colour_hex := [],
    found_option := none, param := none }

/-- The `for param in option["parameters"]` loop: `param` is rebound at every
iteration; an active parameter additionally sets `option_data` and
`colour_hex`. -/
def procParams : List Param → ScanState → ScanState
  | [], s => s
  | p :: rest, s =>
      let s1 := { s with param := some p }
      let s2 :=
        if p.active then { s1 with option_data := some p.data, colour_hex := p.colours }
        else s1
      procParams rest s2

/-- Recording an active effect option: `found_option = option`,
`option_id = option["id"]`. -/
def recordOpt (s : ScanState) (o : DevOption) : ScanState :=
  { s with found_option := some o, option_id := some o.id }

/-- The `for option in device["zone_options"][zone]` loop.  Options lacking
an `"active"` key or not of type `"effect"` are skipped; an option with
`active == True` is recorded, and then: no `"parameters"` key raises a
caught `KeyError` (fall through to the next option); an empty parameter
list `break`s out of this zone's loop; a non-empty one runs the parameter
loop and continues. -/
def procOptions : List DevOption → ScanState → ScanState
  | [], s => s
  | o :: rest, s =>
      match o.active with
      | none => procOptions rest s
      | some a =>
          if o.otype = "effect" then
            if a then
              let s1 := recordOpt s o
              match o.parameters with
              | none => procOptions rest s1
              | some ps => if ps.isEmpty then s1 else procOptions rest (procParams ps s1)
            else procOptions rest s
          else procOptions rest s

/-- The zone names `_get_current_device_option` iterates: `[zone]` when the
`zone` argument is truthy (a non-empty string), otherwise
`device["zone_options"].keys()`.  (Python's `if zone:` treats the empty
string like `None`.) -/
def scopedZoneNames (d : DeviceItem) (zone : Option String) : List String :=
  match zone with
  | some z => if z.isEmpty then d.zone_options.map Prod.fst else [z]
  | none => d.zone_options.map Prod.fst

/-- The option list of one zone, `device["zone_options"][zone]`.  A zone name
absent from the dict raises `KeyError` in the source; here it contributes no
options, and every theorem naming a specific zone assumes it is present. -/
def zoneOpts (d : DeviceItem) (zn : String) : List DevOption :=
  ((d.zone_options.find? (fun zo => zo.1 = zn)).map Prod.snd).getD []

/-- `Middleman._get_current_device_option(device, zone)`: run the scan over
the scoped zones, then return `[None, None, None]` when no active effect
option was found; otherwise `[option_id, option_data, colour_hex]`, where
`colour_hex` falls back to `found_option["colours"]` when the `param` local
was never bound (`if not param:`). -/
def get_current_device_option (d : DeviceItem) (zone : Option String) :
    Option String × Option String × Option (List String) :=
  let s :=
    (scopedZoneNames d zone).foldl (fun st zn => procOptions (zoneOpts d zn) st) initScan
  match s.found_option with
  | none => (none, none, none)
  | some fo =>
      match s.param with
      | none => (s.option_id, s.option_data, some fo.colours)
      | some _ => (s.option_id, s.option_data, some s.colour_hex)

/-- One invocation of `set_device_state(backend, uid, serial, zone,
option_id, option_data, colour_hex)` as issued by `set_bulk_option`.
Modelled from the spec: `set_device_state` itself is not defined in the
source under study (only called); per §6 it is the backend apply-state
operation, so the embedding records each call's arguments. -/
structure ApplyCall where
  backend : String
  uid : Nat
  serial : String
  zone : String
  option_id : String
  option_data : Option String
  colours : List String
deriving DecidableEq

/-- Modelled from the spec: `get_device_all()` is called by the bulk
operations but not defined in the source under study; per §4.5 the bulk
operations run over every cached device, so it yields the device cache. -/
def get_device_all (s : MState) : List DeviceItem :=
  s.device_cache

/-- The `while len(colour_hex) < colours_needed` loop of `set_bulk_option`:
append the placeholder colour `"#00FF00"` until the list is long enough. -/
def padColours (c : List String) (needed : Nat) : List String :=
  if c.length < needed then padColours (c ++ ["#00FF00"]) needed else c
termination_by needed - c.length
decreasing_by simp_wf; omega

/-- The zone loop of `set_bulk_option` for one device: for each zone, scan
its option list for the first option with the requested id (`skip` stays
`True` otherwise and the zone issues no call); on a match, rebind
`colour_hex` to that option's colours, pad, and issue one
`set_device_state` call.  `colour_hex` is threaded across zones exactly as
the local variable is in the source. -/
def bulkZones (oid : String) (odata : Option String) (needed : Nat) (d : DeviceItem) :
    List (String × List DevOption) → List String → List ApplyCall
  | [], _ => []
  | (zn, opts) :: rest, colour_hex =>
      match opts.find? (fun o => o.id = oid) with
      | none => bulkZones oid odata needed d rest colour_hex
      | some o =>
          let ch := padColours o.colours needed
          { backend := d.backend, uid := d.uid, serial := d.serial, zone := zn,
            option_id := oid, option_data := odata, colours := ch }
            :: bulkZones oid odata needed d rest ch

/-- `Middleman.set_bulk_option(option_id, option_data, colours_needed)`:
for every device from `get_device_all()`, reset `colour_hex` to `[]` and run
the zone loop; the result is the sequence of `set_device_state` calls
issued (logging of per-call results does not affect the calls made). -/
def set_bulk_option (oid : String) (odata : Option String) (needed : Nat)
    (s : MState) : List ApplyCall :=
  (get_device_all s).flatMap (fun d => bulkZones oid odata needed d d.zone_options [])

end Middleman

/-- The four-way outcome of loading one backend id, as the spec's taxonomy
states it (§4.2/§7): not installed, import/construction error with a
diagnostic string, present-but-bad `init()`, or running. -/
inductive LoadClass where
  | notInstalled
  | importError (msg : String)
  | badInit (b : Backend)
  | running (b : Backend)

/-- The class the source assigns to one backend id, read off its registry
entry: missing constructor key or any non-import exception → `importError`;
`ImportError`/`ModuleNotFoundError` → `notInstalled`; falsy `init()` →
`badInit`; truthy `init()` → `running`. -/
def loadClass (reg : Registry) (id : String) : LoadClass :=
  match reg.modules id with
  | none => .importError (get_exception_as_string ("KeyError: " ++ id))
  | some .raiseImport => .notInstalled
  | some (.raiseOther m) => .importError (get_exception_as_string m)
  | some (.constructed _ .raisesImport) => .notInstalled
  | some (.constructed _ (.raisesOther m)) => .importError (get_exception_as_string m)
  | some (.constructed b (.returns ok)) => if ok then .running b else .badInit b

/-- Whether a load class is `notInstalled`. -/
def LoadClass.isNotInstalled : LoadClass → Bool
  | .notInstalled => true
  | _ => false

/-- The diagnostic string of an `importError` class, if any. -/
def LoadClass.errMsg : LoadClass → Option String
  | .importError m => some m
  | _ => none

/-- The backend object of a `badInit` class, if any. -/
def LoadClass.badBackend : LoadClass → Option Backend
  | .badInit b => some b
  | _ => none

/-- The backend object of a `running` class, if any. -/
def LoadClass.runBackend : LoadClass → Option Backend
  | .running b => some b
  | _ => none

/-- Exactly one of four booleans is true. -/
def oneOfFour (a b c d : Bool) : Bool :=
  (a.toNat + b.toNat + c.toNat + d.toNat) = 1

/-- Whether loading id `x` raises an exception inside the classification
`try` (construction raising, `init()` raising, or the constructor key
missing) — the situations C2 calls a backend failure by exception. -/
def raisesDuringLoad (reg : Registry) (x : String) : Bool :=
  match reg.modules x with
  | none => true
  | some .raiseImport => true
  | some (.raiseOther _) => true
  | some (.constructed _ .raisesImport) => true
  | some (.constructed _ (.raisesOther _)) => true
  | some (.constructed _ (.returns _)) => false

/-- A backend's `get_devices()` result viewed as its cache contribution:
the list itself when it is a list, nothing otherwise. -/
def devicesAsList (b : Backend) : List DeviceItem :=
  match b.devices with
  | .list ds => ds
  | .other => []

/-- A lookup result viewed through the middleman's `isinstance` filter:
the device when the backend returned a `Backend.DeviceItem`, else nothing. -/
def deviceItemOf : LookupResult → Option DeviceItem
  | .item d => some d
  | .other => none

/-- An option that `_get_current_device_option` records: it has an
`"active"` key whose value is `True` and its type is `"effect"`. -/
def isActiveEffect (o : DevOption) : Bool :=
  o.active = some true && o.otype = "effect"

/-- The options of one zone that the source's scan actually records, in
order: active effect options, except that recording one whose parameter
list is present and empty stops the scan of this zone (the `break`). -/
def recordedOptions : List DevOption → List DevOption
  | [] => []
  | o :: rest =>
      if isActiveEffect o then
        if o.parameters = some [] then [o]
        else o :: recordedOptions rest
      else recordedOptions rest

/-- All options the scan records across the scoped zones, in scan order. -/
def recordedActiveEffects (d : DeviceItem) (zone : Option String) : List DevOption :=
  (Middleman.scopedZoneNames d zone).flatMap
    (fun zn => recordedOptions (Middleman.zoneOpts d zn))

/-- The active effect options in full iteration order — zones in order,
every option of each zone in list order with no early exit.  This is the
iteration C4's sentence describes; it is compared against the source scan. -/
def activeEffectsFullOrder (d : DeviceItem) (zone : Option String) : List DevOption :=
  (Middleman.scopedZoneNames d zone).flatMap
    (fun zn => (Middleman.zoneOpts d zn).filter isActiveEffect)

/-- The per-zone calls C7 describes: for each device and each zone holding
an option with the requested id (the first such option), one apply call
with that option's colours padded; zones without the option contribute no
call. -/
def bulkCallsSpec (oid : String) (odata : Option String) (needed : Nat)
    (devs : List DeviceItem) : List Middleman.ApplyCall :=
  devs.flatMap (fun d =>
    d.zone_options.filterMap (fun zo =>
      (zo.2.find? (fun o => o.id = oid)).map (fun o =>
        ({ backend := d.backend, uid := d.uid, serial := d.serial, zone := zo.1,
           option_id := oid, option_data := odata,
           colours := Middleman.padColours o.colours needed } : Middleman.ApplyCall))))

/-! Concrete instances used to exercise the theorems, shaped after the dummy
backend of the repository's test suite. -/

/-- An inactive static option parameter. -/
def exParamOff : Param :=
  { active := false, data := "single", colours := ["#00F000"] }

/-- The active parameter of the example breath option. -/
def exParamOn : Param :=
  { active := true, data := "dual", colours := ["#123456", "#654321"] }

/-- An effect option with parameters whose second parameter is active. -/
def exOptBreath : DevOption :=
  { id := "breath", otype := "effect", active := some true,
    colours := ["#999999"], parameters := some [exParamOff, exParamOn] }

/-- An active parameterless effect option (no `"parameters"` key). -/
def exOptStatic : DevOption :=
  { id := "static", otype := "effect", active := some true,
    colours := ["#112233"], parameters := none }

/-- An inactive effect option. -/
def exOptWave : DevOption :=
  { id := "wave", otype := "effect", active := some false,
    colours := ["#CCCCCC"], parameters := none }

/-- An example keyboard whose single zone has one active effect option. -/
def exKeyboard : DeviceItem :=
  { name := "Dummy Keyboard", serial := "DUMMY0001", backend := "dummy", uid := 0,
    form_factor := "keyboard", zone_options := [("main", [exOptWave, exOptStatic])] }

/-- An example mouse: the logo zone offers a static option, the scroll zone
offers nothing. -/
def exMouse : DeviceItem :=
  { name := "Dummy Mouse", serial := "DUMMY0002", backend := "dummy", uid := 1,
    form_factor := "mouse",
    zone_options := [("logo", [exOptStatic]), ("scroll", [exOptWave])] }

/-- A device whose single zone has one active effect option with parameters. -/
def exParamDevice : DeviceItem :=
  { name := "Param Device", serial := "DUMMY0004", backend := "dummy", uid := 3,
    form_factor := "keyboard", zone_options := [("main", [exOptBreath])] }

/-- A device whose zone has an active empty-parameter-list effect option
followed by another active effect option: the source's `break` stops the
zone scan at the first. -/
def exBreakDevice : DeviceItem :=
  { name := "Break Device", serial := "DUMMY0005", backend := "dummy", uid := 4,
    form_factor := "keyboard",
    zone_options :=
      [("main",
        [{ id := "spectrum", otype := "effect", active := some true,
           colours := ["#AAAAAA"], parameters := some [] },
         { id := "ripple", otype := "effect", active := some true,
           colours := ["#BBBBBB"], parameters := none }])] }

/-- A device whose scoped zone has zero active effect options. -/
def exIdleDevice : DeviceItem :=
  { name := "Idle Device", serial := "DUMMY0006", backend := "dummy", uid := 5,
    form_factor := "mouse", zone_options := [("main", [exOptWave])] }

/-- A healthy example backend exposing the keyboard and mouse. -/
def exBackend : Backend :=
  { backend_id := "dummy", version := "9.9.9",
    devices := .list [exKeyboard, exMouse],
    byName := fun n =>
      if n = "Dummy Keyboard" then .item exKeyboard
      else if n = "Dummy Mouse" then .item exMouse
      else .other,
    bySerial := fun sr =>
      if sr = "DUMMY0001" then .item exKeyboard
      else if sr = "DUMMY0002" then .item exMouse
      else .other }

/-- A backend whose `get_devices()` returns a non-list value and whose
lookups never return a `DeviceItem`. -/
def exBrokenBackend : Backend :=
  { backend_id := "broken", version := "0.0.1", devices := .other,
    byName := fun _ => .other, bySerial := fun _ => .other }

/-- A registry with one working backend and one whose construction raises a
generic exception; both have troubleshooters. -/
def exRegistry : Registry :=
  { names := ["dummy", "faulty"],
    modules := fun i =>
      if i = "dummy" then some (.constructed exBackend (.returns true))
      else if i = "faulty" then some (.raiseOther "RuntimeError: daemon refused") else none,
    troubleshoot := fun i => i = "dummy" || i = "faulty" }

/-- A registry whose single backend fails with a generic construction
exception yet has a registered troubleshooter. -/
def exFailRegistry : Registry :=
  { names := ["failing"],
    modules := fun _ => some (.raiseOther "RuntimeError: no daemon"),
    troubleshoot := fun _ => true }

/-- A registry whose middle backend id has no troubleshooter entry. -/
def exGapRegistry : Registry :=
  { names := ["alpha", "beta", "gamma"],
    modules := fun i =>
      if i = "alpha" then some (.constructed exBackend (.returns true))
      else some (.constructed exBrokenBackend (.returns false)),
    troubleshoot := fun i => i = "alpha" }

/-- A state whose device cache is already populated. -/
def exFullState : MState :=
  { initialState with backends := [exBackend], device_cache := [exKeyboard, exMouse] }

/-- A state with running backends (one broken) and an empty cache. -/
def exEmptyCacheState : MState :=
  { initialState with backends := [exBrokenBackend, exBackend] }

/-! Helper lemmas. -/

/-- The last element of a cons, phrased via `Option.or`. -/
theorem getLast?_cons_or {α : Type} (a : α) (l : List α) :
    (a :: l).getLast? = (l.getLast?).or (some a) := by
  cases l with
  | nil => rfl
  | cons b t =>
      obtain ⟨x, hx⟩ := Option.isSome_iff_exists.mp
        (show (b :: t).getLast?.isSome by simp [List.getLast?_isSome])
      simp [List.getLast?_cons_cons, hx]

/-- The last element of an append, phrased via `Option.or`. -/
theorem getLast?_append_or {α : Type} (l1 l2 : List α) :
    (l1 ++ l2).getLast? = (l2.getLast?).or l1.getLast? := by
  cases h : l2 with
  | nil => simp
  | cons b t =>
      obtain ⟨x, hx⟩ := Option.isSome_iff_exists.mp
        (show (b :: t).getLast?.isSome by simp [List.getLast?_isSome])
      rw [List.getLast?_append_of_ne_nil l1 (by simp [h]), hx]
      rfl

/-- The classification block files the id according to its load class. -/
theorem load_backend_classify_eq (reg : Registry) (s : MState) (id : String) :
    Middleman.load_backend_classify reg s id =
      match loadClass reg id with
      | .notInstalled => { s with not_installed := s.not_installed ++ [id] }
      | .importError m => { s with import_errors := s.import_errors ++ [(id, m)] }
      | .badInit b => { s with bad_init := s.bad_init ++ [b] }
      | .running b => { s with backends := s.backends ++ [b] } := by
  unfold Middleman.load_backend_classify loadClass
  cases hm : reg.modules id with
  | none => rfl
  | some lb =>
      cases lb with
      | raiseImport => rfl
      | raiseOther m => rfl
      | constructed b oc =>
          cases oc with
          | raisesImport => rfl
          | raisesOther m => rfl
          | returns ok => cases ok <;> rfl

/-- When the id has a troubleshooter, `_load_backend_module` does not raise
and appends the id to `troubleshooters` after classifying. -/
theorem load_module_no_raise (reg : Registry) (s : MState) (i : String)
    (hti : reg.troubleshoot i = true) :
    Middleman.load_backend_module reg s i =
      ({ Middleman.load_backend_classify reg s i with
          troubleshooters :=
            (Middleman.load_backend_classify reg s i).troubleshooters ++ [i] }, false) := by
  unfold Middleman.load_backend_module
  simp [hti]

/-- When the id has no troubleshooter, `_load_backend_module` raises after
classifying, leaving the classified state. -/
theorem load_module_raise (reg : Registry) (s : MState) (i : String)
    (hti : reg.troubleshoot i = false) :
    Middleman.load_backend_module reg s i =
      (Middleman.load_backend_classify reg s i, true) := by
  unfold Middleman.load_backend_module
  simp [hti]

/-- Component equations of the classification step, phrased through the load
class of the id. -/
theorem classify_components (reg : Registry) (s : MState) (i : String) :
    (Middleman.load_backend_classify reg s i).not_installed
        = s.not_installed ++ (if (loadClass reg i).isNotInstalled then [i] else []) ∧
    (Middleman.load_backend_classify reg s i).import_errors
        = s.import_errors ++ (((loadClass reg i).errMsg).map (fun m => (i, m))).toList ∧
    (Middleman.load_backend_classify reg s i).bad_init
        = s.bad_init ++ ((loadClass reg i).badBackend).toList ∧
    (Middleman.load_backend_classify reg s i).backends
        = s.backends ++ ((loadClass reg i).runBackend).toList ∧
    (Middleman.load_backend_classify reg s i).troubleshooters = s.troubleshooters ∧
    (Middleman.load_backend_classify reg s i).device_cache = s.device_cache := by
  rw [load_backend_classify_eq]
  cases loadClass reg i <;>
    simp [LoadClass.isNotInstalled, LoadClass.errMsg, LoadClass.badBackend,
      LoadClass.runBackend]

/-- One step of the `init()` loop. -/
theorem initAux_cons (reg : Registry) (i : String) (rest : List String) (s : MState) :
    Middleman.initAux reg (i :: rest) s =
      if (Middleman.load_backend_module reg s i).2 then
        .error (Middleman.load_backend_module reg s i).1
      else Middleman.initAux reg rest (Middleman.load_backend_module reg s i).1 := rfl

/-- Component equations of a full non-raising `_load_backend_module` step. -/
theorem load_module_components (reg : Registry) (s : MState) (i : String)
    (hti : reg.troubleshoot i = true) :
    (Middleman.load_backend_module reg s i).2 = false ∧
    (Middleman.load_backend_module reg s i).1.not_installed
        = s.not_installed ++ (if (loadClass reg i).isNotInstalled then [i] else []) ∧
    (Middleman.load_backend_module reg s i).1.import_errors
        = s.import_errors ++ (((loadClass reg i).errMsg).map (fun m => (i, m))).toList ∧
    (Middleman.load_backend_module reg s i).1.bad_init
        = s.bad_init ++ ((loadClass reg i).badBackend).toList ∧
    (Middleman.load_backend_module reg s i).1.backends
        = s.backends ++ ((loadClass reg i).runBackend).toList ∧
    (Middleman.load_backend_module reg s i).1.troubleshooters = s.troubleshooters ++ [i] ∧
    (Middleman.load_backend_module reg s i).1.device_cache = s.device_cache := by
  rw [load_module_no_raise reg s i hti]
  obtain ⟨c1, c2, c3, c4, c5, c6⟩ := classify_components reg s i
  exact ⟨rfl, c1, c2, c3, c4, by rw [show ({ Middleman.load_backend_classify reg s i with
    troubleshooters := (Middleman.load_backend_classify reg s i).troubleshooters ++ [i]
      : MState }).troubleshooters
    = (Middleman.load_backend_classify reg s i).troubleshooters ++ [i] from rfl, c5], c6⟩

/-- When every id in the list has a troubleshooter, the `init()` loop
completes and every collection grows by exactly the contributions of the
ids' own load classes, in id order. -/
theorem initAux_ok_components (reg : Registry) (ids : List String) (s : MState)
    (hts : ∀ i ∈ ids, reg.troubleshoot i = true) :
    ∃ s', Middleman.initAux reg ids s = .ok s' ∧
      s'.not_installed
          = s.not_installed ++ ids.filter (fun i => (loadClass reg i).isNotInstalled) ∧
      s'.import_errors
          = s.import_errors
              ++ ids.filterMap (fun i => ((loadClass reg i).errMsg).map (fun m => (i, m))) ∧
      s'.bad_init = s.bad_init ++ ids.filterMap (fun i => (loadClass reg i).badBackend) ∧
      s'.backends = s.backends ++ ids.filterMap (fun i => (loadClass reg i).runBackend) ∧
      s'.troubleshooters = s.troubleshooters ++ ids ∧
      s'.device_cache = s.device_cache := by
  induction ids generalizing s with
  | nil => exact ⟨s, rfl, by simp, by simp, by simp, by simp, by simp, rfl⟩
  | cons i rest ih =>
      have hti : reg.troubleshoot i = true := hts i (List.mem_cons_self _ _)
      have hrest : ∀ j ∈ rest, reg.troubleshoot j = true :=
        fun j hj => hts j (List.mem_cons_of_mem _ hj)
      obtain ⟨hr, c1, c2, c3, c4, c5, c6⟩ := load_module_components reg s i hti
      have hstep : Middleman.initAux reg (i :: rest) s
          = Middleman.initAux reg rest (Middleman.load_backend_module reg s i).1 := by
        rw [initAux_cons, hr]
        simp
      obtain ⟨s', hok, h1, h2, h3, h4, h5, h6⟩ :=
        ih (Middleman.load_backend_module reg s i).1 hrest
      refine ⟨s', by rw [hstep]; exact hok, ?_, ?_, ?_, ?_, ?_, ?_⟩
      · rw [h1, c1, List.filter_cons]
        cases h : (loadClass reg i).isNotInstalled <;> simp [h]
      · rw [h2, c2, List.filterMap_cons]
        cases h : (loadClass reg i).errMsg <;> simp [h]
      · rw [h3, c3, List.filterMap_cons]
        cases h : (loadClass reg i).badBackend <;> simp [h]
      · rw [h4, c4, List.filterMap_cons]
        cases h : (loadClass reg i).runBackend <;> simp [h]
      · rw [h5, c5]
        simp
      · rw [h6, c6]

/-- When every id before `x` has a troubleshooter and `x` has none, the
`init()` loop aborts at `x` with the uncaught `KeyError`: the resulting
state is determined by the prefix and `x` alone, and the ids after `x` are
never processed. -/
theorem initAux_error_at (reg : Registry) (s : MState) (pre post : List String) (x : String)
    (hpre : ∀ i ∈ pre, reg.troubleshoot i = true) (hx : reg.troubleshoot x = false) :
    Middleman.initAux reg (pre ++ x :: post) s
      = .error (Middleman.load_backend_classify reg (Middleman.loadSeq reg s pre) x) := by
  induction pre generalizing s with
  | nil =>
      rw [List.nil_append, initAux_cons, load_module_raise reg s x hx]
      simp [Middleman.loadSeq]
  | cons i rest ih =>
      have hti : reg.troubleshoot i = true := hpre i (List.mem_cons_self _ _)
      have hrest : ∀ j ∈ rest, reg.troubleshoot j = true :=
        fun j hj => hpre j (List.mem_cons_of_mem _ hj)
      have hr : (Middleman.load_backend_module reg s i).2 = false := by
        rw [load_module_no_raise reg s i hti]
      rw [List.cons_append, initAux_cons, hr]
      simp only [Bool.false_eq_true, if_false]
      rw [ih (Middleman.load_backend_module reg s i).1 hrest]
      rfl

/-- A non-empty cache suppresses repopulation. -/
theorem reload_if_empty_of_ne (s : MState) (h : s.device_cache ≠ []) :
    Middleman.reload_device_cache_if_empty s = s := by
  unfold Middleman.reload_device_cache_if_empty
  simp [List.isEmpty_iff, h]

/-- The cache loader's fold appends exactly the list-valued results. -/
theorem foldl_devices (bs : List Backend) (start : List DeviceItem) :
    bs.foldl
        (fun acc b =>
          match b.devices with
          | .list ds => acc ++ ds
          | .other => acc)
        start
      = start ++ bs.flatMap devicesAsList := by
  induction bs generalizing start with
  | nil => simp
  | cons b rest ih =>
      rw [List.foldl_cons, List.flatMap_cons]
      cases hb : b.devices with
      | list ds => rw [ih]; simp [devicesAsList, hb]
      | other => rw [ih]; simp [devicesAsList, hb]

/-- An empty cache is repopulated with the concatenation, in backend order,
of the list-valued `get_devices()` results. -/
theorem reload_if_empty_of_empty (s : MState) (h : s.device_cache = []) :
    Middleman.reload_device_cache_if_empty s
      = { s with device_cache := s.backends.flatMap devicesAsList } := by
  unfold Middleman.reload_device_cache_if_empty
  rw [if_pos (by simp [h]), foldl_devices, h]
  rfl

/-- Repopulation is idempotent. -/
theorem reload_if_empty_idem (s : MState) :
    Middleman.reload_device_cache_if_empty (Middleman.reload_device_cache_if_empty s)
      = Middleman.reload_device_cache_if_empty s := by
  by_cases h : s.device_cache = []
  · rw [reload_if_empty_of_empty s h]
    by_cases h2 : s.backends.flatMap devicesAsList = []
    · rw [reload_if_empty_of_empty _ (by simp [h2]), h2]
    · exact reload_if_empty_of_ne _ (by simp [h2])
  · rw [reload_if_empty_of_ne s h, reload_if_empty_of_ne s h]

/-- The name-lookup loop returns the first backend answer passing the
`DeviceItem` check, in backend list order. -/
theorem byNameLoop_eq (name : String) (bs : List Backend) :
    Middleman.byNameLoop name bs = bs.findSome? (fun b => deviceItemOf (b.byName name)) := by
  induction bs with
  | nil => rfl
  | cons b rest ih =>
      unfold Middleman.byNameLoop
      rw [List.findSome?_cons]
      cases hb : b.byName name <;> simp [deviceItemOf, hb, ih]

/-- The serial-lookup loop returns the first backend answer passing the
`DeviceItem` check, in backend list order. -/
theorem bySerialLoop_eq (serial : String) (bs : List Backend) :
    Middleman.bySerialLoop serial bs
      = bs.findSome? (fun b => deviceItemOf (b.bySerial serial)) := by
  induction bs with
  | nil => rfl
  | cons b rest ih =>
      unfold Middleman.bySerialLoop
      rw [List.findSome?_cons]
      cases hb : b.bySerial serial <;> simp [deviceItemOf, hb, ih]

/-- The padding loop appends exactly the missing number of placeholders. -/
theorem padColours_eq_append (c : List String) (n : Nat) :
    Middleman.padColours c n = c ++ List.replicate (n - c.length) "#00FF00" := by
  generalize hk : n - c.length = k
  induction k generalizing c with
  | zero =>
      unfold Middleman.padColours
      rw [if_neg (by omega)]
      simp
  | succ k ih =>
      unfold Middleman.padColours
      rw [if_pos (by omega)]
      rw [ih (c ++ ["#00FF00"]) (by simp; omega)]
      simp [List.replicate_succ]

/-- Padding reaches exactly the larger of the old length and the target. -/
theorem padColours_length (c : List String) (n : Nat) :
    (Middleman.padColours c n).length = max c.length n := by
  rw [padColours_eq_append]
  simp
  omega

/-- The zone loop of `set_bulk_option` ignores the carried `colour_hex`:
each zone holding the option contributes one call, built from its own first
matching option. -/
theorem bulkZones_eq (oid : String) (odata : Option String) (needed : Nat) (d : DeviceItem)
    (zs : List (String × List DevOption)) (carried : List String) :
    Middleman.bulkZones oid odata needed d zs carried
      = zs.filterMap (fun zo =>
          (zo.2.find? (fun o => o.id = oid)).map (fun o =>
            ({ backend := d.backend, uid := d.uid, serial := d.serial, zone := zo.1,
               option_id := oid, option_data := odata,
               colours := Middleman.padColours o.colours needed } : Middleman.ApplyCall))) := by
  induction zs generalizing carried with
  | nil => rfl
  | cons zo rest ih =>
      rw [List.filterMap_cons]
      unfold Middleman.bulkZones
      cases hf : zo.2.find? (fun o => o.id = oid) with
      | none => simp [hf, ih]
      | some o => simp [hf, ih]

/-- One step of the parameter loop, with the state update made explicit. -/
theorem procParams_cons (p : Param) (rest : List Param) (s : Middleman.ScanState) :
    Middleman.procParams (p :: rest) s =
      Middleman.procParams rest
        (if p.active then
          { s with param := some p, option_data := some p.data, colour_hex := p.colours }
        else { s with param := some p }) := by
  cases hp : p.active <;> simp [Middleman.procParams, hp]

/-- The parameter loop never touches `option_id` or `found_option`. -/
theorem procParams_preserves (ps : List Param) (s : Middleman.ScanState) :
    (Middleman.procParams ps s).option_id = s.option_id ∧
    (Middleman.procParams ps s).found_option = s.found_option := by
  induction ps generalizing s with
  | nil => exact ⟨rfl, rfl⟩
  | cons p rest ih =>
      rw [procParams_cons]
      cases hp : p.active
      · rw [if_neg (by simp [hp])]
        exact ih _
      · rw [if_pos (by simp [hp])]
        exact ih _

/-- After a non-empty parameter loop the `param` local is bound. -/
theorem procParams_param_some (rest : List Param) (p : Param) (s : Middleman.ScanState) :
    ∃ q, (Middleman.procParams (p :: rest) s).param = some q := by
  induction rest generalizing p s with
  | nil =>
      rw [procParams_cons]
      cases hp : p.active
      · exact ⟨p, by rw [if_neg (by simp [hp])]; rfl⟩
      · exact ⟨p, by rw [if_pos (by simp [hp])]; rfl⟩
  | cons p2 rest2 ih =>
      rw [procParams_cons]
      cases hp : p.active
      · rw [if_neg (by simp [hp])]
        exact ih p2 _
      · rw [if_pos (by simp [hp])]
        exact ih p2 _

/-- A parameter run with no active parameter leaves `option_data` and
`colour_hex` untouched. -/
theorem procParams_inactive (ps : List Param) (s : Middleman.ScanState)
    (h : ps.filter (fun q => q.active) = []) :
    (Middleman.procParams ps s).option_data = s.option_data ∧
    (Middleman.procParams ps s).colour_hex = s.colour_hex := by
  induction ps generalizing s with
  | nil => exact ⟨rfl, rfl⟩
  | cons p rest ih =>
      rw [List.filter_cons] at h
      cases hp : p.active
      · rw [hp] at h
        simp only [Bool.false_eq_true, if_false] at h
        rw [procParams_cons, if_neg (by simp [hp])]
        exact ih _ h
      · rw [hp] at h
        simp at h
  
/-- A parameter run whose unique active parameter is `pa` sets
`option_data` and `colour_hex` from `pa`. -/
theorem procParams_unique_active (ps : List Param) (pa : Param) (s : Middleman.ScanState)
    (h : ps.filter (fun q => q.active) = [pa]) :
    (Middleman.procParams ps s).option_data = some pa.data ∧
    (Middleman.procParams ps s).colour_hex = pa.colours := by
  induction ps generalizing s with
  | nil => simp at h
  | cons p rest ih =>
      rw [List.filter_cons] at h
      cases hp : p.active
      · rw [hp] at h
        simp only [Bool.false_eq_true, if_false] at h
        rw [procParams_cons, if_neg (by simp [hp])]
        exact ih _ h
      · rw [hp] at h
        simp only [if_true] at h
        obtain ⟨hpa, hrest⟩ := List.cons_eq_cons.mp h
        rw [procParams_cons, if_pos (by simp [hp])]
        obtain ⟨hd, hc⟩ := procParams_inactive rest _ hrest
        rw [hd, hc, hpa]
        exact ⟨rfl, rfl⟩

/-- An option that is not an active effect is skipped by the option loop. -/
theorem procOptions_cons_skip (o : DevOption) (rest : List DevOption)
    (s : Middleman.ScanState) (h : isActiveEffect o = false) :
    Middleman.procOptions (o :: rest) s = Middleman.procOptions rest s := by
  unfold isActiveEffect at h
  cases ha : o.active with
  | none => simp [Middleman.procOptions, ha]
  | some a =>
      rw [ha] at h
      by_cases ht : o.otype = "effect"
      · cases a with
        | true => simp [ht] at h
        | false => simp [Middleman.procOptions, ha, ht]
      · simp [Middleman.procOptions, ha, ht]

/-- An active effect option is recorded, then the loop breaks (empty
parameter list), falls through (`KeyError`, no parameter key), or runs the
parameter loop and continues. -/
theorem procOptions_cons_rec (o : DevOption) (rest : List DevOption)
    (s : Middleman.ScanState) (h : isActiveEffect o = true) :
    Middleman.procOptions (o :: rest) s =
      match o.parameters with
      | none => Middleman.procOptions rest (Middleman.recordOpt s o)
      | some [] => Middleman.recordOpt s o
      | some (p :: ps) =>
          Middleman.procOptions rest
            (Middleman.procParams (p :: ps) (Middleman.recordOpt s o)) := by
  unfold isActiveEffect at h
  have h1 : o.active = some true := by
    cases ha : o.active with
    | none => rw [ha] at h; simp at h
    | some a =>
        rw [ha] at h
        cases a with
        | true => rfl
        | false => simp at h
  have h2 : o.otype = "effect" := by
    rw [h1] at h
    simpa using h
  cases hp : o.parameters with
  | none => simp [Middleman.procOptions, h1, h2, hp]
  | some ps =>
      cases ps with
      | nil => simp [Middleman.procOptions, h1, h2, hp]
      | cons p pt => simp [Middleman.procOptions, h1, h2, hp]

/-- A run over options none of which is an active effect changes nothing. -/
theorem procOptions_all_skip (opts : List DevOption) (s : Middleman.ScanState)
    (h : opts.filter isActiveEffect = []) :
    Middleman.procOptions opts s = s := by
  induction opts generalizing s with
  | nil => rfl
  | cons o rest ih =>
      rw [List.filter_cons] at h
      cases ho : isActiveEffect o
      · rw [ho] at h
        simp only [Bool.false_eq_true, if_false] at h
        rw [procOptions_cons_skip o rest s ho]
        exact ih s h
      · rw [ho] at h
        simp at h

/-- A run over options whose only active effect option is `o` is exactly
the processing of `o`. -/
theorem procOptions_single (opts : List DevOption) (o : DevOption)
    (s : Middleman.ScanState) (h : opts.filter isActiveEffect = [o]) :
    Middleman.procOptions opts s =
      match o.parameters with
      | none => Middleman.recordOpt s o
      | some [] => Middleman.recordOpt s o
      | some (p :: ps) =>
          Middleman.procParams (p :: ps) (Middleman.recordOpt s o) := by
  induction opts generalizing s with
  | nil => simp at h
  | cons o2 rest ih =>
      rw [List.filter_cons] at h
      cases ho : isActiveEffect o2
      · rw [ho] at h
        simp only [Bool.false_eq_true, if_false] at h
        rw [procOptions_cons_skip o2 rest s ho]
        exact ih s h
      · rw [ho] at h
        simp only [if_true] at h
        obtain ⟨ho2, hrest⟩ := List.cons_eq_cons.mp h
        subst ho2
        rw [procOptions_cons_rec o2 rest s ho]
        cases hp : o2.parameters with
        | none => exact procOptions_all_skip rest _ hrest
        | some ps =>
            cases ps with
            | nil => rfl
            | cons p pt => exact procOptions_all_skip rest _ hrest

/-- After the option loop, `found_option` and `option_id` hold the last
recorded option (and its id), falling back to their previous values when
nothing was recorded. -/
theorem procOptions_last (opts : List DevOption) (s : Middleman.ScanState) :
    (Middleman.procOptions opts s).found_option
        = ((recordedOptions opts).getLast?).or s.found_option ∧
    (Middleman.procOptions opts s).option_id
        = (((recordedOptions opts).getLast?).map DevOption.id).or s.option_id := by
  induction opts generalizing s with
  | nil => simp [Middleman.procOptions, recordedOptions]
  | cons o rest ih =>
      cases ho : isActiveEffect o
      · rw [procOptions_cons_skip o rest s ho]
        have hrec : recordedOptions (o :: rest) = recordedOptions rest := by
          conv_lhs => rw [recordedOptions]
          rw [ho]
          simp
        rw [hrec]
        exact ih s
      · rw [procOptions_cons_rec o rest s ho]
        have hrec : recordedOptions (o :: rest)
            = if o.parameters = some [] then [o] else o :: recordedOptions rest := by
          conv_lhs => rw [recordedOptions]
          rw [ho]
          simp
        cases hp : o.parameters with
        | none =>
            rw [hrec, if_neg (by simp [hp])]
            obtain ⟨ihf, ihi⟩ := ih (Middleman.recordOpt s o)
            constructor
            · rw [ihf, getLast?_cons_or]
              cases hg : (recordedOptions rest).getLast? <;> simp [Middleman.recordOpt]
            · rw [ihi, getLast?_cons_or]
              cases hg : (recordedOptions rest).getLast? <;> simp [Middleman.recordOpt]
        | some ps =>
            cases ps with
            | nil =>
                rw [hrec, if_pos (by rw [hp])]
                constructor <;> simp [Middleman.recordOpt]
            | cons p pt =>
                rw [hrec, if_neg (by simp [hp])]
                obtain ⟨ihf, ihi⟩ :=
                  ih (Middleman.procParams (p :: pt) (Middleman.recordOpt s o))
                obtain ⟨pid, pfound⟩ :=
                  procParams_preserves (p :: pt) (Middleman.recordOpt s o)
                constructor
                · rw [ihf, pfound, getLast?_cons_or]
                  cases hg : (recordedOptions rest).getLast? <;> simp [Middleman.recordOpt]
                · rw [ihi, pid, getLast?_cons_or]
                  cases hg : (recordedOptions rest).getLast? <;> simp [Middleman.recordOpt]

/-- `procOptions_last` lifted to the fold over all scoped zones. -/
theorem procOptions_foldl_last (ls : List (List DevOption)) (s : Middleman.ScanState) :
    ((ls.foldl (fun st opts => Middleman.procOptions opts st) s).found_option
        = ((ls.flatMap recordedOptions).getLast?).or s.found_option) ∧
    ((ls.foldl (fun st opts => Middleman.procOptions opts st) s).option_id
        = (((ls.flatMap recordedOptions).getLast?).map DevOption.id).or s.option_id) := by
  induction ls generalizing s with
  | nil => simp
  | cons l rest ih =>
      rw [List.foldl_cons, List.flatMap_cons]
      obtain ⟨ihf, ihi⟩ := ih (Middleman.procOptions l s)
      obtain ⟨pf, pi⟩ := procOptions_last l s
      constructor
      · rw [ihf, pf, getLast?_append_or]
        cases hg : (rest.flatMap recordedOptions).getLast? <;>
          cases hg2 : (recordedOptions l).getLast? <;> simp
      · rw [ihi, pi, getLast?_append_or]
        cases hg : (rest.flatMap recordedOptions).getLast? <;>
          cases hg2 : (recordedOptions l).getLast? <;> simp

/-! Claim theorems. -/

/-- C1: for every registered backend id, `init()` classifies the load
attempt into exactly one outcome: `ImportError`/`ModuleNotFoundError`
during construction appends the id to `not_installed`; any other exception
from construction or `init()` records a formatted diagnostic string in
`import_errors`; a falsy `init()` appends the backend to `bad_init`; and
only a truthy `init()` appends the backend to the running `backends`. -/
theorem init_classifies_each_backend (reg : Registry)
    (hts : ∀ i ∈ reg.names, reg.troubleshoot i = true) :
    ∃ s', Middleman.init reg initialState = .ok s' ∧
      s'.not_installed = reg.names.filter (fun i => (loadClass reg i).isNotInstalled) ∧
      s'.import_errors
          = reg.names.filterMap (fun i => ((loadClass reg i).errMsg).map (fun m => (i, m))) ∧
      s'.bad_init = reg.names.filterMap (fun i => (loadClass reg i).badBackend) ∧
      s'.backends = reg.names.filterMap (fun i => (loadClass reg i).runBackend) ∧
      (∀ i ∈ reg.names,
        oneOfFour (loadClass reg i).isNotInstalled ((loadClass reg i).errMsg).isSome
          ((loadClass reg i).badBackend).isSome ((loadClass reg i).runBackend).isSome
          = true) := by
  obtain ⟨s', hok, h1, h2, h3, h4, h5, h6⟩ :=
    initAux_ok_components reg reg.names initialState hts
  refine ⟨s', hok, by simpa using h1, by simpa using h2, by simpa using h3,
    by simpa using h4, ?_⟩
  intro i _
  cases h : loadClass reg i <;> rfl

/-- C1 witness: the example registry (one running backend, one failing)
satisfies the hypothesis and the classification equations. -/
theorem init_classifies_each_backend_witness :
    (∀ i ∈ exRegistry.names, exRegistry.troubleshoot i = true) ∧
    (∃ s', Middleman.init exRegistry initialState = .ok s' ∧
      s'.not_installed
          = exRegistry.names.filter (fun i => (loadClass exRegistry i).isNotInstalled) ∧
      s'.import_errors
          = exRegistry.names.filterMap
              (fun i => ((loadClass exRegistry i).errMsg).map (fun m => (i, m))) ∧
      s'.bad_init = exRegistry.names.filterMap (fun i => (loadClass exRegistry i).badBackend) ∧
      s'.backends = exRegistry.names.filterMap (fun i => (loadClass exRegistry i).runBackend) ∧
      (∀ i ∈ exRegistry.names,
        oneOfFour (loadClass exRegistry i).isNotInstalled
          ((loadClass exRegistry i).errMsg).isSome
          ((loadClass exRegistry i).badBackend).isSome
          ((loadClass exRegistry i).runBackend).isSome = true)) :=
  ⟨by decide, init_classifies_each_backend exRegistry (by decide)⟩

/-- C2: an exception raised while loading one backend (construction or
`init()` raising) never prevents `init()` from completing the loop: the
run still finishes, and every backend id's classification is the one
computed from its own registry entry alone. -/
theorem init_error_isolation (reg : Registry)
    (hts : ∀ i ∈ reg.names, reg.troubleshoot i = true)
    (_hlen : 2 ≤ reg.names.length) (x : String) (_hx : x ∈ reg.names)
    (_hraise : raisesDuringLoad reg x = true) :
    ∃ s', Middleman.init reg initialState = .ok s' ∧
      s'.backends = reg.names.filterMap (fun i => (loadClass reg i).runBackend) ∧
      s'.bad_init = reg.names.filterMap (fun i => (loadClass reg i).badBackend) ∧
      s'.not_installed = reg.names.filter (fun i => (loadClass reg i).isNotInstalled) ∧
      s'.import_errors
          = reg.names.filterMap (fun i => ((loadClass reg i).errMsg).map (fun m => (i, m))) := by
  obtain ⟨s', hok, h1, h2, h3, h4, h5, h6⟩ :=
    initAux_ok_components reg reg.names initialState hts
  exact ⟨s', hok, by simpa using h4, by simpa using h3, by simpa using h1,
    by simpa using h2⟩

/-- C2 witness: in the example registry the `faulty` backend raises during
construction, yet the run completes with the per-id classification. -/
theorem init_error_isolation_witness :
    (∀ i ∈ exRegistry.names, exRegistry.troubleshoot i = true) ∧
    2 ≤ exRegistry.names.length ∧ "faulty" ∈ exRegistry.names ∧
    raisesDuringLoad exRegistry "faulty" = true ∧
    (∃ s', Middleman.init exRegistry initialState = .ok s' ∧
      s'.backends = exRegistry.names.filterMap (fun i => (loadClass exRegistry i).runBackend) ∧
      s'.bad_init = exRegistry.names.filterMap (fun i => (loadClass exRegistry i).badBackend) ∧
      s'.not_installed
          = exRegistry.names.filter (fun i => (loadClass exRegistry i).isNotInstalled) ∧
      s'.import_errors
          = exRegistry.names.filterMap
              (fun i => ((loadClass exRegistry i).errMsg).map (fun m => (i, m)))) :=
  ⟨by decide, by decide, by decide, by decide,
    init_error_isolation exRegistry (by decide) (by decide) "faulty" (by decide) (by decide)⟩

/-- C8 counterexample: a backend classified as an import error (its id is a
key of `import_errors`, it is not running) nevertheless receives a
`troubleshooters` entry, because the troubleshooter block of
`_load_backend_module` runs for every id regardless of classification. -/
theorem init_troubleshooter_on_failure_counterexample :
    ∃ s', Middleman.init exFailRegistry initialState = .ok s' ∧
      s'.troubleshooters = ["failing"] ∧
      s'.import_errors.map Prod.fst = ["failing"] ∧
      s'.backends = [] ∧ s'.bad_init = [] ∧ s'.not_installed = [] := by
  refine ⟨_, rfl, rfl, rfl, rfl, rfl, rfl⟩

/-- C8 (amended): `init()` adds the id to `troubleshooters` whenever a
troubleshooting routine is registered for it, regardless of whether the
backend was classified as running, `not_installed`, `bad_init`, or an
import_errors entry. -/
theorem init_troubleshooters_regardless (reg : Registry)
    (hts : ∀ i ∈ reg.names, reg.troubleshoot i = true) :
    ∃ s', Middleman.init reg initialState = .ok s' ∧
      s'.troubleshooters = reg.names ∧
      s'.import_errors
          = reg.names.filterMap (fun i => ((loadClass reg i).errMsg).map (fun m => (i, m))) ∧
      s'.backends = reg.names.filterMap (fun i => (loadClass reg i).runBackend) := by
  obtain ⟨s', hok, h1, h2, h3, h4, h5, h6⟩ :=
    initAux_ok_components reg reg.names initialState hts
  exact ⟨s', hok, by simpa using h5, by simpa using h2, by simpa using h4⟩

/-- C8 witness: the failing example registry registers a troubleshooter for
its (import-error) backend and the entry is added. -/
theorem init_troubleshooters_regardless_witness :
    (∀ i ∈ exFailRegistry.names, exFailRegistry.troubleshoot i = true) ∧
    (∃ s', Middleman.init exFailRegistry initialState = .ok s' ∧
      s'.troubleshooters = exFailRegistry.names ∧
      s'.import_errors
          = exFailRegistry.names.filterMap
              (fun i => ((loadClass exFailRegistry i).errMsg).map (fun m => (i, m))) ∧
      s'.backends
          = exFailRegistry.names.filterMap (fun i => (loadClass exFailRegistry i).runBackend)) :=
  ⟨by decide, init_troubleshooters_regardless exFailRegistry (by decide)⟩

/-- C9: when a registered backend id has no entry in the
troubleshooting-routine registry, `init()` aborts with the uncaught
`KeyError` of the troubleshooter lookup (its handler catches `NameError`):
the resulting state is determined by the ids before it and itself, and the
ids after it are never attempted. -/
theorem init_missing_troubleshooter_keyerror (reg : Registry) (s : MState)
    (pre post : List String) (x : String) (hnames : reg.names = pre ++ x :: post)
    (hpre : ∀ i ∈ pre, reg.troubleshoot i = true)
    (hx : reg.troubleshoot x = false) :
    Middleman.init reg s
      = .error (Middleman.load_backend_classify reg (Middleman.loadSeq reg s pre) x) := by
  unfold Middleman.init
  rw [hnames]
  exact initAux_error_at reg s pre post x hpre hx

/-- C9 witness: in the gap registry, `beta` has no troubleshooter, so
`init()` raises there and `gamma` is never attempted. -/
theorem init_missing_troubleshooter_keyerror_witness :
    Middleman.init exGapRegistry initialState
      = .error (Middleman.load_backend_classify exGapRegistry
          (Middleman.loadSeq exGapRegistry initialState ["alpha"]) "beta") :=
  init_missing_troubleshooter_keyerror exGapRegistry initialState ["alpha"] ["gamma"] "beta"
    rfl (by decide) (by decide)

/-- C10: populating the empty device cache concatenates, in running-backend
order, exactly those `get_devices()` results that are lists; a backend
returning any non-list value contributes nothing and raises nothing (the
loader is a total function). -/
theorem device_cache_populate_skips_nonlists (s : MState) (h : s.device_cache = []) :
    (Middleman.reload_device_cache_if_empty s).device_cache
      = s.backends.flatMap devicesAsList := by
  rw [reload_if_empty_of_empty s h]

/-- C10 witness: a broken backend (non-list `get_devices()`) next to a
working one contributes nothing. -/
theorem device_cache_populate_skips_nonlists_witness :
    exEmptyCacheState.device_cache = [] ∧
    (Middleman.reload_device_cache_if_empty exEmptyCacheState).device_cache
      = exEmptyCacheState.backends.flatMap devicesAsList ∧
    exEmptyCacheState.backends.flatMap devicesAsList = [exKeyboard, exMouse] :=
  ⟨rfl, device_cache_populate_skips_nonlists exEmptyCacheState rfl, rfl⟩

/-- C3: `get_devices()` returns the cache, populating it from the running
backends exactly when it is empty (a non-empty cache is returned as is),
and a second call with no intervening reload returns the same list and
leaves the state unchanged. -/
theorem get_devices_lazy_cache (s : MState) :
    (s.device_cache ≠ [] → Middleman.get_devices s = (s.device_cache, s)) ∧
    (s.device_cache = [] →
        (Middleman.get_devices s).2.device_cache = s.backends.flatMap devicesAsList) ∧
    Middleman.get_devices (Middleman.get_devices s).2 = Middleman.get_devices s := by
  refine ⟨?_, ?_, ?_⟩
  · intro h
    simp only [Middleman.get_devices]
    rw [reload_if_empty_of_ne s h]
  · intro h
    simp only [Middleman.get_devices]
    rw [reload_if_empty_of_empty s h]
  · simp only [Middleman.get_devices]
    rw [reload_if_empty_idem]

/-- C3 witness: a populated cache is returned unchanged, and an empty cache
is populated from the backends. -/
theorem get_devices_lazy_cache_witness :
    exFullState.device_cache ≠ [] ∧
    Middleman.get_devices exFullState = (exFullState.device_cache, exFullState) ∧
    exEmptyCacheState.device_cache = [] ∧
    (Middleman.get_devices exEmptyCacheState).2.device_cache
      = exEmptyCacheState.backends.flatMap devicesAsList :=
  ⟨by decide, (get_devices_lazy_cache exFullState).1 (by decide), rfl,
    (get_devices_lazy_cache exEmptyCacheState).2.1 rfl⟩

/-- C6: `get_device_by_name` and `get_device_by_serial` ask every running
backend in list (registration) order and return the first answer that is a
`DeviceItem`; when no backend produces one the result is `None`; the loops
are total functions, so the calls raise nothing. -/
theorem get_device_lookup_first_match (s : MState) (name serial : String) :
    Middleman.get_device_by_name s name
        = s.backends.findSome? (fun b => deviceItemOf (b.byName name)) ∧
    Middleman.get_device_by_serial s serial
        = s.backends.findSome? (fun b => deviceItemOf (b.bySerial serial)) ∧
    ((∀ b ∈ s.backends, deviceItemOf (b.byName name) = none) →
        Middleman.get_device_by_name s name = none) ∧
    ((∀ b ∈ s.backends, deviceItemOf (b.bySerial serial) = none) →
        Middleman.get_device_by_serial s serial = none) := by
  refine ⟨byNameLoop_eq name s.backends, bySerialLoop_eq serial s.backends, ?_, ?_⟩
  · intro hall
    rw [Middleman.get_device_by_name, byNameLoop_eq, List.findSome?_eq_none_iff]
    exact hall
  · intro hall
    rw [Middleman.get_device_by_serial, bySerialLoop_eq, List.findSome?_eq_none_iff]
    exact hall

/-- C6 witness: with a non-matching backend first, the second backend's
match is returned; an unknown key yields `None`. -/
theorem get_device_lookup_first_match_witness :
    Middleman.get_device_by_name exEmptyCacheState "Dummy Keyboard" = some exKeyboard ∧
    Middleman.get_device_by_serial exEmptyCacheState "DUMMY0002" = some exMouse ∧
    Middleman.get_device_by_name exEmptyCacheState "Missing" = none := by
  have h1 := get_device_lookup_first_match exEmptyCacheState "Dummy Keyboard" "DUMMY0002"
  have h2 := get_device_lookup_first_match exEmptyCacheState "Missing" "NOPE"
  refine ⟨?_, ?_, ?_⟩
  · rw [h1.1]
    rfl
  · rw [h1.2.1]
    rfl
  · exact h2.2.2.1 (by intro b hb; fin_cases hb <;> rfl)

/-- C7: `set_bulk_option` issues, for every cached device and every zone
whose option list holds an option with the requested id, exactly one
apply-state call carrying the device's backend, that zone, the option id
and data, and the matching option's colours padded to the requested count
with the placeholder colour; zones without the option receive no call, and
padding appends placeholders until the length reaches the requested count. -/
theorem set_bulk_option_calls (oid : String) (odata : Option String) (needed : Nat)
    (s : MState) :
    Middleman.set_bulk_option oid odata needed s
        = bulkCallsSpec oid odata needed (Middleman.get_device_all s) ∧
    (∀ c ∈ Middleman.set_bulk_option oid odata needed s, needed ≤ c.colours.length) ∧
    (∀ cl n, Middleman.padColours cl n = cl ++ List.replicate (n - cl.length) "#00FF00") ∧
    (∀ cl n, (Middleman.padColours cl n).length = max cl.length n) := by
  have hmain : Middleman.set_bulk_option oid odata needed s
      = bulkCallsSpec oid odata needed (Middleman.get_device_all s) := by
    unfold Middleman.set_bulk_option bulkCallsSpec Middleman.get_device_all
    congr 1
    funext d
    exact bulkZones_eq oid odata needed d d.zone_options []
  refine ⟨hmain, ?_, padColours_eq_append, padColours_length⟩
  intro c hc
  rw [hmain] at hc
  unfold bulkCallsSpec at hc
  rw [List.mem_flatMap] at hc
  obtain ⟨d, _, hc⟩ := hc
  rw [List.mem_filterMap] at hc
  obtain ⟨zo, _, hc⟩ := hc
  cases hf : zo.2.find? (fun o => o.id = oid) with
  | none => rw [hf] at hc; simp at hc
  | some o =>
      rw [hf] at hc
      rw [Option.map_some'] at hc
      cases hc
      show needed ≤ (Middleman.padColours o.colours needed).length
      rw [padColours_length]
      omega

/-- Flat-mapping over a mapped list composes the functions. -/
theorem flatMap_map_eq {α β γ : Type} (l : List α) (f : α → β) (g : β → List γ) :
    (l.map f).flatMap g = l.flatMap (fun x => g (f x)) := by
  induction l with
  | nil => rfl
  | cons a t ih => simp [List.flatMap_cons, ih]

/-- C4 counterexample: in a zone holding an active effect option with an
empty parameter list followed by another active effect option, the source
returns the first option's id, while the last active effect option in full
zone-then-list iteration order is the second: last-match-wins over the full
iteration, as the claim states it, does not hold. -/
theorem current_option_last_match_counterexample :
    (Middleman.get_current_device_option exBreakDevice (some "main")).1 = some "spectrum" ∧
    ((activeEffectsFullOrder exBreakDevice (some "main")).getLast?).map DevOption.id
        = some "ripple" ∧
    (Middleman.get_current_device_option exBreakDevice (some "main")).1
        ≠ ((activeEffectsFullOrder exBreakDevice (some "main")).getLast?).map DevOption.id := by
  decide

/-- C4 (amended): the option whose id is returned is the last one the scan
records, where the scan visits zones in order and options within a zone in
list order but stops scanning a zone immediately after recording an active
effect option whose parameter list is present and empty (the `break`);
later zones are still scanned and override earlier ones. -/
theorem current_option_recorded_last_wins (d : DeviceItem) (zone : Option String)
    (_hz : ∀ z, zone = some z → z.isEmpty = false →
        (d.zone_options.find? (fun zo => zo.1 = z)).isSome) :
    (Middleman.get_current_device_option d zone).1
      = ((recordedActiveEffects d zone).getLast?).map DevOption.id := by
  have hfold :
      ((Middleman.scopedZoneNames d zone).foldl
          (fun st zn => Middleman.procOptions (Middleman.zoneOpts d zn) st) Middleman.initScan)
        = (((Middleman.scopedZoneNames d zone).map (Middleman.zoneOpts d)).foldl
            (fun st opts => Middleman.procOptions opts st) Middleman.initScan) := by
    rw [List.foldl_map]
  obtain ⟨hf, hi⟩ := procOptions_foldl_last
    ((Middleman.scopedZoneNames d zone).map (Middleman.zoneOpts d)) Middleman.initScan
  rw [flatMap_map_eq] at hf hi
  have hreceq : ((Middleman.scopedZoneNames d zone).flatMap
      (fun zn => recordedOptions (Middleman.zoneOpts d zn))) = recordedActiveEffects d zone :=
    rfl
  rw [hreceq] at hf hi
  rw [← hfold] at hf hi
  simp only [Middleman.get_current_device_option]
  cases hgl : (recordedActiveEffects d zone).getLast? with
  | none =>
      rw [hgl] at hf
      have hfo : ((Middleman.scopedZoneNames d zone).foldl
          (fun st zn => Middleman.procOptions (Middleman.zoneOpts d zn) st)
          Middleman.initScan).found_option = none := by
        rw [hf]
        rfl
      rw [hfo]
      rfl
  | some o =>
      rw [hgl] at hf hi
      have hfo : ((Middleman.scopedZoneNames d zone).foldl
          (fun st zn => Middleman.procOptions (Middleman.zoneOpts d zn) st)
          Middleman.initScan).found_option = some o := by
        rw [hf]
        rfl
      have hio : ((Middleman.scopedZoneNames d zone).foldl
          (fun st zn => Middleman.procOptions (Middleman.zoneOpts d zn) st)
          Middleman.initScan).option_id = some o.id := by
        rw [hi]
        rfl
      rw [hfo]
      cases hsp : ((Middleman.scopedZoneNames d zone).foldl
          (fun st zn => Middleman.procOptions (Middleman.zoneOpts d zn) st)
          Middleman.initScan).param <;> simp [hio]

/-- C4 witness: the amended last-recorded rule evaluated on the break
device. -/
theorem current_option_recorded_last_wins_witness :
    (Middleman.get_current_device_option exBreakDevice (some "main")).1
      = ((recordedActiveEffects exBreakDevice (some "main")).getLast?).map DevOption.id :=
  current_option_recorded_last_wins exBreakDevice (some "main")
    (by
      intro z hzeq hne
      injection hzeq with h
      subst h
      decide)

/-- C5 counterexample: on a zone with zero active effect options the source
returns `[None, None, None]` — the colour slot is `None`, not an empty
colour list, so the claimed `(null, null, empty colour list)` triple is not
what the code produces. -/
theorem current_option_no_active_counterexample :
    Middleman.get_current_device_option exIdleDevice (some "main") = (none, none, none) ∧
    Middleman.get_current_device_option exIdleDevice (some "main")
      ≠ (none, none, some ([] : List String)) := by
  decide

/-- C5 (amended): on a scoped zone with zero active effect options the
result is the all-`None` triple `(null, null, null)`; on a zone with
exactly one active effect option the result carries that option's id and
its colours (option data `None`) when its parameter list is absent or
empty, or the unique active parameter's data and colours when it has
parameters with exactly one active one. -/
theorem current_option_zone_characterization (d : DeviceItem) (zn : String)
    (hzn : zn.isEmpty = false)
    (_hpresent : (d.zone_options.find? (fun zo => zo.1 = zn)).isSome) :
    ((Middleman.zoneOpts d zn).filter isActiveEffect = [] →
        Middleman.get_current_device_option d (some zn) = (none, none, none)) ∧
    (∀ o, (Middleman.zoneOpts d zn).filter isActiveEffect = [o] →
      ((o.parameters = none ∨ o.parameters = some []) →
          Middleman.get_current_device_option d (some zn)
            = (some o.id, none, some o.colours)) ∧
      (∀ ps p, o.parameters = some ps → ps.filter (fun q => q.active) = [p] →
          Middleman.get_current_device_option d (some zn)
            = (some o.id, some p.data, some p.colours))) := by
  have hscope : Middleman.scopedZoneNames d (some zn) = [zn] := by
    simp [Middleman.scopedZoneNames, hzn]
  have hred : ∀ st : Middleman.ScanState,
      Middleman.procOptions (Middleman.zoneOpts d zn) Middleman.initScan = st →
      Middleman.get_current_device_option d (some zn)
        = (match st.found_option with
           | none => ((none : Option String), (none : Option String),
               (none : Option (List String)))
           | some fo =>
               match st.param with
               | none => (st.option_id, st.option_data, some fo.colours)
               | some _ => (st.option_id, st.option_data, some st.colour_hex)) := by
    intro st hst
    simp only [Middleman.get_current_device_option, hscope, List.foldl_cons,
      List.foldl_nil, hst]
  refine ⟨?_, ?_⟩
  · intro h
    rw [hred Middleman.initScan (procOptions_all_skip _ _ h)]
    rfl
  · intro o ho
    have hs := procOptions_single (Middleman.zoneOpts d zn) o Middleman.initScan ho
    constructor
    · intro hp
      cases hp with
      | inl hp =>
          rw [hp] at hs
          rw [hred _ hs]
          rfl
      | inr hp =>
          rw [hp] at hs
          rw [hred _ hs]
          rfl
    · intro ps p hp hpa
      rw [hp] at hs
      cases ps with
      | nil => simp at hpa
      | cons p1 pt =>
          rw [hred _ hs]
          obtain ⟨hid, hfound⟩ :=
            procParams_preserves (p1 :: pt) (Middleman.recordOpt Middleman.initScan o)
          obtain ⟨q, hq⟩ := procParams_param_some pt p1 (Middleman.recordOpt Middleman.initScan o)
          obtain ⟨hdata, hcol⟩ := procParams_unique_active (p1 :: pt) p
            (Middleman.recordOpt Middleman.initScan o) hpa
          have hF : (Middleman.procParams (p1 :: pt)
              (Middleman.recordOpt Middleman.initScan o)).found_option = some o :=
            hfound.trans rfl
          have hI : (Middleman.procParams (p1 :: pt)
              (Middleman.recordOpt Middleman.initScan o)).option_id = some o.id :=
            hid.trans rfl
          rw [hF, hq, hI, hdata, hcol]

/-- C5 witness: the parameterised device's single active effect option with
one active parameter yields that parameter's data and colours. -/
theorem current_option_zone_characterization_witness :
    Middleman.get_current_device_option exParamDevice (some "main")
      = (some exOptBreath.id, some exParamOn.data, some exParamOn.colours) :=
  ((current_option_zone_characterization exParamDevice "main" (by decide) (by decide)).2
    exOptBreath (by decide)).2 [exParamOff, exParamOn] exParamOn rfl (by decide)

/-- C7 witness: the call characterization and the padding equation
evaluated at concrete inputs (an already-long-enough list, and an empty
list padded to two placeholders). -/
theorem set_bulk_option_calls_witness :
    Middleman.set_bulk_option "static" none 1 exFullState
      = bulkCallsSpec "static" none 1 (Middleman.get_device_all exFullState) ∧
    Middleman.padColours ["#112233"] 1 = ["#112233"] ∧
    Middleman.padColours [] 2 = ["#00FF00", "#00FF00"] := by
  refine ⟨(set_bulk_option_calls "static" none 1 exFullState).1, ?_, ?_⟩
  · rw [(set_bulk_option_calls "static" none 1 exFullState).2.2.1]
    rfl
  · rw [(set_bulk_option_calls "static" none 1 exFullState).2.2.1]
    rfl
